import Mathlib

/-!
# TuBes_KDS front end: router configuration and application bootstrap

A verification development over the two source files of the front end:

* `frontend/src/router/index.js` declares the constant `routes` (an array
  holding one object literal) and the constant `router`, the result of
  `createRouter` on an options object literal.
* `frontend/src/main.js` runs the chain `createApp(App).use(router).mount('#app')`.

Object literals are embedded as property lists (key, value) in source order,
so that the set of keys of a literal is part of the embedding. Calls into the
framework (`vue`, `vue-router`) are not code of this repository: constructors
of values (`createWebHistory`, `createRouter`) are kept as call records, and
the three fallible operations of the bootstrap are taken as parameters.
-/

namespace TuBesKDS

/-! ## Imported bindings -/

/-- A default import: the local binding and the module specifier it comes from. -/
structure Import where
  binding : String
  source : String
deriving DecidableEq, Repr

/-- Binding of `import HomeView from '../views/Home.vue'` in `router/index.js`. -/
def HomeView : Import := ⟨"HomeView", "../views/Home.vue"⟩

/-- Binding of `import App from './App.vue'` in `main.js`. -/
def App : Import := ⟨"App", "./App.vue"⟩

/-! ## Route records -/

/-- Value of a property of a route record literal. The source uses a string
literal (`path`, `name`) and a reference to an imported binding (`component`);
`loader` is the shape of a lazily loaded component, an arrow function around a
dynamic import of `source`, which the source does not use. -/
inductive PropValue where
  | str (s : String)
  | component (c : Import)
  | loader (source : String)
deriving DecidableEq, Repr

/-- An object literal of the route table: its properties in source order. -/
abbrev RouteRecord := List (String × PropValue)

/-- Property access `record[key]`; `none` stands for `undefined`. -/
def RouteRecord.prop (r : RouteRecord) (key : String) : Option PropValue :=
  List.lookup key r

/-- Own keys of the literal, in source order. -/
def RouteRecord.keys (r : RouteRecord) : List String :=
  r.map Prod.fst

/-- The constant `routes` of `router/index.js` (lines 4 to 11). -/
def routes : List RouteRecord :=
  [ [ ("path", .str "/"),
      ("name", .str "home"),
      ("component", .component HomeView) ] ]

/-! ## Router construction -/

/-- History factories exported by the routing framework. -/
inductive HistoryFactory where
  | createWebHistory
  | createWebHashHistory
  | createMemoryHistory
deriving DecidableEq, Repr

/-- A history value, kept as the record of the factory call that built it.
An argument is `none` when the JavaScript value is `undefined`. -/
structure History where
  factory : HistoryFactory
  args : List (Option String)
deriving DecidableEq, Repr

/-- The call `createWebHistory(base)`. -/
def createWebHistory (base : Option String) : History :=
  ⟨.createWebHistory, [base]⟩

/-- Value of a property of the options literal given to `createRouter`. -/
inductive OptionValue where
  | history (h : History)
  | routes (table : List RouteRecord)
deriving DecidableEq, Repr

/-- The options object literal: its properties in source order. -/
abbrev RouterOptions := List (String × OptionValue)

/-- A router value, kept as the record of the `createRouter` call. -/
structure Router where
  options : RouterOptions
deriving DecidableEq, Repr

/-- The call `createRouter(options)`. -/
def createRouter (options : RouterOptions) : Router :=
  ⟨options⟩

/-- The options literal of `router/index.js` (lines 13 to 16). `BASE_URL` is the
value of `process.env.BASE_URL`; the shorthand property `routes` is the
constant `routes`. -/
def routerOptions (BASE_URL : Option String) : RouterOptions :=
  [ ("history", .history (createWebHistory BASE_URL)),
    ("routes", .routes routes) ]

/-- The constant `router`, default export of `router/index.js`. -/
def router (BASE_URL : Option String) : Router :=
  createRouter (routerOptions BASE_URL)

/-- The history the router was created with, if the options hold one. -/
def Router.history (r : Router) : Option History :=
  match List.lookup "history" r.options with
  | some (.history h) => some h
  | _ => none

/-- The route table the router was created with (empty if the options hold none). -/
def Router.routeTable (r : Router) : List RouteRecord :=
  match List.lookup "routes" r.options with
  | some (.routes t) => t
  | _ => []

/-! ## Resolution against the route table -/

/-- Outcome of resolving a location. -/
inductive Resolution where
  | matched (record : RouteRecord)
  | notFound
deriving DecidableEq, Repr

/-- Modelled from the spec: the framework's resolution of a path, which is code
of the routing library and not of this repository. The spec describes the route
table as "the static list mapping URL paths to view components" and a path with
no entry as not found; the model takes the first record whose `path` property
is the requested path. Patterns (parameters, wildcards) are not interpreted. -/
def resolvePath (table : List RouteRecord) (path : String) : Resolution :=
  match table.find? (fun r => decide (r.prop "path" = some (.str path))) with
  | some r => .matched r
  | none => .notFound

/-- Modelled from the spec: the framework's resolution of a named route ("a
named route home"), which is code of the routing library. The model takes the
first record whose `name` property is the requested name. -/
def resolveName (table : List RouteRecord) (name : String) : Resolution :=
  match table.find? (fun r => decide (r.prop "name" = some (.str name))) with
  | some r => .matched r
  | none => .notFound

/-- The path of a resolution, when a record matched and has a string `path`. -/
def Resolution.path : Resolution → Option String
  | .matched r =>
    match r.prop "path" with
    | some (.str s) => some s
    | _ => none
  | .notFound => none

/-- Property `key` of the matched record, if any. -/
def Resolution.prop (res : Resolution) (key : String) : Option PropValue :=
  match res with
  | .matched r => r.prop key
  | .notFound => none

/-! ## Bootstrap -/

/-- A framework operation performed by the bootstrap chain of `main.js`. -/
inductive Call where
  | createApp (root : Import)
  | use (plugin : Router)
  | mount (selector : String)
deriving DecidableEq, Repr

/-- The three framework operations the chain calls, each of which may throw an
error of type `ε`. `A` is the type of application instances and `I` the type
of what `mount` returns. They are code of the framework, taken as parameters. -/
structure Framework (ε A I : Type) where
  createApp : Import → Except ε A
  use : A → Router → Except ε A
  mount : A → String → Except ε I

/-- A run of a piece of the chain: the calls performed, in order, and the
outcome (a value, or the error thrown). -/
structure Run (ε α : Type) where
  log : List Call
  result : Except ε α

/-- One framework call: it is recorded and its outcome is the outcome of the run. -/
def Run.call {ε α : Type} (c : Call) (outcome : Except ε α) : Run ε α :=
  ⟨[c], outcome⟩

/-- Method chaining with no `try`/`catch`: when the receiver expression threw,
the error propagates and the rest is not evaluated; otherwise the rest runs on
the value. -/
def Run.andThen {ε α β : Type} (x : Run ε α) (rest : α → Run ε β) : Run ε β :=
  match x.result with
  | .error e => ⟨x.log, .error e⟩
  | .ok a => ⟨x.log ++ (rest a).log, (rest a).result⟩

/-- The statement `createApp(App).use(router).mount('#app')` of `main.js`, where
`router` is the default export of `./router`. -/
def bootstrap {ε A I : Type} (fw : Framework ε A I) (BASE_URL : Option String) : Run ε I :=
  (Run.call (.createApp App) (fw.createApp App)).andThen fun app =>
  (Run.call (.use (router BASE_URL)) (fw.use app (router BASE_URL))).andThen fun app1 =>
  Run.call (.mount "#app") (fw.mount app1 "#app")

/-! ## Module state over time -/

/-- The state after the modules are initialised. `table` is the content of the
array object created by the literal of `router/index.js`: the constant `routes`
names it and the options given to `createRouter` hold the same object, so the
framework reaches it by reference. `framework` is everything the framework
owns, of a type `F` left to it. -/
structure World (F : Type) where
  table : List RouteRecord
  framework : F

/-- What a framework does on each operation. An operation receives the values
this code passes and the whole state, the array object included, and returns
the whole state: nothing in the type keeps it from writing to the array. -/
structure Effects (F : Type) where
  createApp : Import → World F → World F
  use : Router → World F → World F
  mount : String → World F → World F
  navigate : String → World F → World F

/-- An operation after initialisation: a step of the bootstrap chain of
`main.js`, or a navigation of the router to a path. -/
inductive Op where
  | createApp
  | use
  | mount
  | navigate (path : String)
deriving DecidableEq, Repr

/-- The state right after `router/index.js` is evaluated: the array holds what
the literal lists. -/
def World.init {F : Type} (f0 : F) : World F :=
  ⟨routes, f0⟩

/-- One operation. Neither source file assigns to `routes` (a `const`) or calls
a mutating method on it: a step of this code is one framework call, on the
arguments the source gives it, and the state after the step is the state the
framework returns. -/
def World.step {F : Type} (fx : Effects F) (BASE_URL : Option String) (w : World F) :
    Op → World F
  | .createApp => fx.createApp App w
  | .use => fx.use (router BASE_URL) w
  | .mount => fx.mount "#app" w
  | .navigate path => fx.navigate path w

/-- A sequence of operations, left to right. -/
def World.run {F : Type} (fx : Effects F) (BASE_URL : Option String) (w : World F)
    (ops : List Op) : World F :=
  ops.foldl (World.step fx BASE_URL) w

/-- A framework none of whose operations writes to the array. -/
def Effects.ReadOnly {F : Type} (fx : Effects F) : Prop :=
  (∀ root w, (fx.createApp root w).table = w.table) ∧
  (∀ plugin w, (fx.use plugin w).table = w.table) ∧
  (∀ selector w, (fx.mount selector w).table = w.table) ∧
  (∀ path w, (fx.navigate path w).table = w.table)

/-- What the framework owns in the model of the spec: the root component of the
application instance, the plugins attached to it, the selector it is mounted
on, and the outcome of the last navigation. -/
structure Session where
  root : Option Import
  plugins : List Router
  mountedAt : Option String
  current : Option Resolution
deriving DecidableEq, Repr

/-- The framework state before any operation. -/
def Session.start : Session :=
  ⟨none, [], none, none⟩

/-- Modelled from the spec: the four framework operations, which are code of
the libraries and not of this repository. Per the spec, the factory "creates an
application instance from a root component definition", the instance "is
configured with a router plugin instance", mounting attaches the application
"to a specific DOM node", navigation resolves the path against the route
table, and the table "is constructed once at process start and never mutated":
each operation records its effect in the framework's own state, and navigation
reads the array as it is at that moment. -/
def specFramework : Effects Session where
  createApp := fun root w =>
    ⟨w.table, { w.framework with root := some root }⟩
  use := fun plugin w =>
    ⟨w.table, { w.framework with plugins := w.framework.plugins ++ [plugin] }⟩
  mount := fun selector w =>
    ⟨w.table, { w.framework with mountedAt := some selector }⟩
  navigate := fun path w =>
    ⟨w.table, { w.framework with current := some (resolvePath w.table path) }⟩

/-- A framework whose navigation writes through the reference: it appends a
record for the requested path to the array. -/
def registeringFramework : Effects Unit where
  createApp := fun _ w => w
  use := fun _ w => w
  mount := fun _ w => w
  navigate := fun path w => ⟨w.table ++ [[("path", .str path)]], w.framework⟩

/-! ## Sample frameworks -/

/-- A framework in which `createApp` succeeds and installing a plugin throws. -/
def installThrows : Framework String Unit Unit where
  createApp := fun _ => .ok ()
  use := fun _ _ => .error "install failed"
  mount := fun _ _ => .ok ()

/-- A framework in which `createApp` and `use` succeed and `mount` throws. -/
def mountThrows : Framework String Unit Unit where
  createApp := fun _ => .ok ()
  use := fun _ _ => .ok ()
  mount := fun _ _ => .error "no mount target"

/-! ## Properties of the route table and the router -/

/-- C1: the route table handed to `createRouter` has exactly one record; that
record has the keys `path`, `name`, `component` and no other, with path "/",
name "home" and component `HomeView`, the default import of
`../views/Home.vue`. -/
theorem routes_single_home_record (base : Option String) :
    List.lookup "routes" (router base).options = some (.routes routes) ∧
    routes.length = 1 ∧
    routes.map RouteRecord.keys = [["path", "name", "component"]] ∧
    routes.map (fun r => r.prop "path") = [some (.str "/")] ∧
    routes.map (fun r => r.prop "name") = [some (.str "home")] ∧
    routes.map (fun r => r.prop "component") = [some (.component HomeView)] ∧
    HomeView.source = "../views/Home.vue" := by
  refine ⟨?_, ?_, ?_, ?_, ?_, ?_, ?_⟩ <;>
    simp [router, createRouter, routerOptions, routes, RouteRecord.keys, RouteRecord.prop,
      List.lookup, HomeView]

/-- C2: resolving the path "/" against the router's route table matches the
record named "home" whose component is `HomeView`, and resolving the name
"home" gives the path "/". -/
theorem resolve_root_is_home (base : Option String) :
    resolvePath (router base).routeTable "/" ≠ .notFound ∧
    (resolvePath (router base).routeTable "/").prop "name" = some (.str "home") ∧
    (resolvePath (router base).routeTable "/").prop "component" = some (.component HomeView) ∧
    (resolveName (router base).routeTable "home").path = some "/" := by
  refine ⟨?_, ?_, ?_, ?_⟩ <;>
    simp [resolvePath, resolveName, Router.routeTable, router, createRouter, routerOptions,
      routes, RouteRecord.prop, Resolution.prop, Resolution.path, List.lookup, List.find?]

/-- C3: every path other than "/" matches no record of the router's route
table: its resolution is the not-found outcome, and so is not the resolution
of "/" (the "home" route). -/
theorem resolve_other_path_not_found (base : Option String) (p : String) (hp : p ≠ "/") :
    resolvePath (router base).routeTable p = .notFound ∧
    resolvePath (router base).routeTable p ≠ resolvePath (router base).routeTable "/" := by
  have hp1 : ¬ "/" = p := fun h => hp h.symm
  refine ⟨?_, ?_⟩ <;>
    simp [resolvePath, Router.routeTable, router, createRouter, routerOptions,
      routes, RouteRecord.prop, List.lookup, List.find?, hp1]

/-- Witness of C3 at the path "/about". -/
theorem resolve_other_path_not_found_witness :
    "/about" ≠ "/" ∧
    resolvePath (router (some "/")).routeTable "/about" = .notFound ∧
    resolvePath (router (some "/")).routeTable "/about" ≠
      resolvePath (router (some "/")).routeTable "/" :=
  ⟨by decide, resolve_other_path_not_found (some "/") "/about" (by decide)⟩

/-- C5: for every value of `process.env.BASE_URL`, the options of the router
hold a history built by `createWebHistory` (not the hash or memory factory)
from that value alone, and the static route table as routes. -/
theorem router_history_and_routes (base : Option String) :
    (router base).history = some (createWebHistory base) ∧
    (createWebHistory base).factory = .createWebHistory ∧
    (createWebHistory base).factory ≠ .createWebHashHistory ∧
    (createWebHistory base).factory ≠ .createMemoryHistory ∧
    (createWebHistory base).args = [base] ∧
    (router base).routeTable = routes := by
  refine ⟨?_, ?_, ?_, ?_, ?_, ?_⟩ <;>
    simp [Router.history, Router.routeTable, router, createRouter, routerOptions,
      createWebHistory, List.lookup]

/-- C9: every record of the route table is static and flat: its path is a
string with no parameter marker `:` and no wildcard `*`, it has no
`beforeEnter`, `children`, `redirect` or `alias` property, and its component
is an imported binding, not a loader function; the router options have the
two keys `history` and `routes` only. -/
theorem routes_static_and_flat (base : Option String) :
    (∀ r ∈ routes,
      (∃ s, r.prop "path" = some (.str s) ∧ ':' ∉ s.toList ∧ '*' ∉ s.toList) ∧
      r.prop "beforeEnter" = none ∧
      r.prop "children" = none ∧
      r.prop "redirect" = none ∧
      r.prop "alias" = none ∧
      (∃ c, r.prop "component" = some (.component c)) ∧
      (∀ src, r.prop "component" ≠ some (.loader src))) ∧
    (routerOptions base).map Prod.fst = ["history", "routes"] := by
  refine ⟨?_, ?_⟩
  · intro r hr
    simp only [routes, List.mem_singleton] at hr
    subst hr
    refine ⟨⟨"/", ?_, ?_, ?_⟩, ?_, ?_, ?_, ?_, ⟨HomeView, ?_⟩, ?_⟩ <;>
      simp [RouteRecord.prop, List.lookup]
  · simp [routerOptions]

/-- Witness of C9 at the record of the route table. -/
theorem routes_static_and_flat_witness :
    [("path", PropValue.str "/"), ("name", .str "home"), ("component", .component HomeView)]
      ∈ routes ∧
    RouteRecord.prop
      [("path", PropValue.str "/"), ("name", .str "home"), ("component", .component HomeView)]
      "children" = none :=
  ⟨by simp [routes],
    ((routes_static_and_flat none).1 _ (by simp [routes])).2.2.1⟩

/-! ## Properties of the bootstrap -/

/-- C4: the bootstrap performs its framework operations in the order
`createApp(App)`, `use(router)` with the router exported by `./router`,
`mount('#app')`: the calls of any run are an initial part of that list, the
only plugin ever attached is that router, and when `createApp` and `use` do
not throw the calls are exactly these three, `mount` being the last and
deciding the outcome. -/
theorem bootstrap_calls_in_order {ε A I : Type} (fw : Framework ε A I)
    (base : Option String) :
    (bootstrap fw base).log <+:
      [.createApp App, .use (router base), .mount "#app"] ∧
    (∀ plugin, Call.use plugin ∈ (bootstrap fw base).log → plugin = router base) ∧
    (∀ a a1, fw.createApp App = .ok a → fw.use a (router base) = .ok a1 →
      (bootstrap fw base).log = [.createApp App, .use (router base), .mount "#app"] ∧
      (bootstrap fw base).result = fw.mount a1 "#app") := by
  have hpre : (bootstrap fw base).log <+:
      [.createApp App, .use (router base), .mount "#app"] := by
    cases h1 : fw.createApp App with
    | error e =>
      exact ⟨[.use (router base), .mount "#app"], by simp [bootstrap, Run.andThen, Run.call, h1]⟩
    | ok a =>
      cases h2 : fw.use a (router base) with
      | error e =>
        exact ⟨[.mount "#app"], by simp [bootstrap, Run.andThen, Run.call, h1, h2]⟩
      | ok a1 =>
        exact ⟨[], by simp [bootstrap, Run.andThen, Run.call, h1, h2]⟩
  refine ⟨hpre, ?_, ?_⟩
  · intro plugin hmem
    obtain ⟨rest, hrest⟩ := hpre
    have hin : Call.use plugin ∈
        [Call.createApp App, Call.use (router base), Call.mount "#app"] := by
      rw [← hrest]
      exact List.mem_append_left rest hmem
    simpa using hin
  · intro a a1 h1 h2
    simp [bootstrap, Run.andThen, Run.call, h1, h2]

/-- Witness of C4 at a framework whose `mount` throws. -/
theorem bootstrap_calls_in_order_witness :
    (bootstrap mountThrows (some "/")).log =
      [.createApp App, .use (router (some "/")), .mount "#app"] ∧
    (bootstrap mountThrows (some "/")).result = mountThrows.mount () "#app" :=
  (bootstrap_calls_in_order mountThrows (some "/")).2.2 () () rfl rfl

/-- C7: the bootstrap neither catches nor reports: it fails with error `e`
exactly when the first failing step among `createApp`, `use`, `mount` fails
with `e`, and after a failing step no later step is called. -/
theorem bootstrap_propagates_first_failure {ε A I : Type} (fw : Framework ε A I)
    (base : Option String) :
    (∀ e, (bootstrap fw base).result = .error e ↔
      (fw.createApp App = .error e ∨
        (∃ a, fw.createApp App = .ok a ∧ fw.use a (router base) = .error e) ∨
        (∃ a a1, fw.createApp App = .ok a ∧ fw.use a (router base) = .ok a1 ∧
          fw.mount a1 "#app" = .error e))) ∧
    (∀ e, fw.createApp App = .error e →
      (bootstrap fw base).log = [.createApp App]) ∧
    (∀ a e, fw.createApp App = .ok a → fw.use a (router base) = .error e →
      (bootstrap fw base).log = [.createApp App, .use (router base)]) := by
  refine ⟨?_, ?_, ?_⟩
  · intro e
    cases h1 : fw.createApp App with
    | error e1 => simp [bootstrap, Run.andThen, Run.call, h1]
    | ok a =>
      cases h2 : fw.use a (router base) with
      | error e2 => simp [bootstrap, Run.andThen, Run.call, h1, h2]
      | ok a1 => simp [bootstrap, Run.andThen, Run.call, h1, h2]
  · intro e h1
    simp [bootstrap, Run.andThen, Run.call, h1]
  · intro a e h1 h2
    simp [bootstrap, Run.andThen, Run.call, h1, h2]

/-- Witness of C7 at a framework whose `use` throws: the bootstrap fails with
that error and `mount` is not called. -/
theorem bootstrap_propagates_first_failure_witness :
    (bootstrap installThrows none).result = .error "install failed" ∧
    (bootstrap installThrows none).log = [.createApp App, .use (router none)] :=
  ⟨((bootstrap_propagates_first_failure installThrows none).1 "install failed").2
      (Or.inr (Or.inl ⟨(), rfl, rfl⟩)),
    (bootstrap_propagates_first_failure installThrows none).2.2 () "install failed" rfl rfl⟩

/-! ## Invariance of the route table -/

/-- Under a read-only framework, an operation leaves the array as it is. -/
theorem World.step_table {F : Type} (fx : Effects F) (hfx : fx.ReadOnly)
    (base : Option String) (w : World F) (op : Op) :
    (World.step fx base w op).table = w.table := by
  obtain ⟨hcreate, huse, hmount, hnav⟩ := hfx
  cases op with
  | createApp => exact hcreate App w
  | use => exact huse (router base) w
  | mount => exact hmount "#app" w
  | navigate path => exact hnav path w

/-- Under a read-only framework, a sequence of operations leaves the array as it is. -/
theorem World.run_table {F : Type} (fx : Effects F) (hfx : fx.ReadOnly)
    (base : Option String) (ops : List Op) (w : World F) :
    (World.run fx base w ops).table = w.table := by
  induction ops generalizing w with
  | nil => rfl
  | cons op rest ih =>
    have hrest := ih (World.step fx base w op)
    simp only [World.run, List.foldl_cons] at hrest ⊢
    exact hrest.trans (World.step_table fx hfx base w op)

/-- The framework of the spec's model is read-only. -/
theorem specFramework_readOnly : specFramework.ReadOnly :=
  ⟨fun _ _ => rfl, fun _ _ => rfl, fun _ _ => rfl, fun _ _ => rfl⟩

/-- The state model does not make the array immutable: under a framework that
writes through the reference, one navigation leaves two records. -/
theorem registeringFramework_writes :
    (World.run registeringFramework none (World.init ()) [.navigate "/about"]).table.length
      = 2 := by
  simp [World.run, World.step, World.init, registeringFramework, routes]

/-- C8: in every state reached from module initialisation by bootstrap steps
and navigations, the array named by `routes` holds the initial one-record
table, and a further navigation resolves against that table. -/
theorem routes_never_mutated (base : Option String) (s0 : Session) (ops : List Op) :
    (World.run specFramework base (World.init s0) ops).table = routes ∧
    (World.run specFramework base (World.init s0) ops).table.length = 1 ∧
    (∀ p, (World.step specFramework base
        (World.run specFramework base (World.init s0) ops) (.navigate p)).framework.current
      = some (resolvePath routes p)) := by
  have h := World.run_table specFramework specFramework_readOnly base ops (World.init s0)
  have h0 : (World.init s0 : World Session).table = routes := rfl
  refine ⟨h.trans h0, ?_, ?_⟩
  · rw [h, h0]; rfl
  · intro p
    show some (resolvePath (World.run specFramework base (World.init s0) ops).table p) = _
    rw [h, h0]

end TuBesKDS
